import Mathlib

/-!
Verification of the authentication/session core of the `goit-pythonweb-hw-012`
backend (FastAPI + SQLAlchemy + Redis), shallowly embedded in Lean 4.

The embedding follows the Python source:
  * `app/src/services/auth.py`   — token minting, password hashing, the identity
    resolver (`get_current_user`), the role gate (`get_current_active_admin`),
    and `reset_user_password`;
  * `app/src/routes/auth.py`     — the `signup`, `login`, `verify_email`,
    `request_password_reset`, `reset_password` and `refresh_token` endpoints;
  * `app/src/repository/users.py` — `create_user`, `get_user_by_email`,
    `get_user_by_id`;
  * `app/src/services/email.py`  — `create_verification_token`,
    `create_password_reset_token`;
  * `app/src/database/models.py` — the `User` table.

JWTs signed with the server key are modelled as their claim sets
(`Token.signed`); any malformed or foreign-signed string is `Token.garbage`.
Timestamps are seconds as `Nat`.  The bcrypt hash (external `passlib` library)
is modelled by an injective tagging function, which validates exactly the
hash/verify interface the code relies on.  Redis (external) is modelled as an
association list plus a `down` state for an unavailable connection.
-/

deriving instance DecidableEq for Except

/-- Outcome of `jwt.decode` / `jose.jwt.decode`: PyJWT and python-jose both
distinguish an expired signature from any other invalid-token condition. -/
inductive JWTErr where
  | expired
  | invalid
deriving Repr, DecidableEq

/-- The claim set carried by a token signed with the server key.  The Python
code only ever reads the keys `sub`, `exp`, `type` and `jti`; absent keys
are `Option.none`. -/
structure Claims where
  sub : Option String
  exp : Nat
  type : Option String
  jti : Option String
deriving Repr, DecidableEq

/-- The dict passed to `create_access_token` / `create_refresh_token` before
the functions add `exp` (and `type`).  Call sites pass subsets of these keys. -/
structure TokenData where
  sub : Option String
  type : Option String
  jti : Option String
deriving Repr, DecidableEq

/-- A JWT string: either signed with `settings.secret_key` (and then it is its
claim set) or malformed / signed with another key. -/
inductive Token where
  | signed (claims : Claims)
  | garbage
deriving Repr, DecidableEq

/-- `jwt.decode(token, settings.secret_key, algorithms=[...])`: signature and
expiry check; an `exp` at or before `now` raises `ExpiredSignatureError`. -/
def jwt_decode (t : Token) (now : Nat) : Except JWTErr Claims :=
  match t with
  | .garbage => .error .invalid
  | .signed c => if c.exp ≤ now then .error .expired else .ok c

/-- A FastAPI `HTTPException`, as status code plus detail message. -/
structure HTTPErr where
  status : Nat
  detail : String
deriving Repr, DecidableEq

/-- A row of the `users` table (`app/src/database/models.py`): columns `id`,
`email`, `password`, `confirmed` (default false), `avatar` (nullable),
`role` (default "user"). -/
structure User where
  id : Nat
  email : String
  password : String
  confirmed : Bool
  avatar : Option String
  role : String
deriving Repr, DecidableEq

/-- Python truthiness test on an optional string: `None` and `""` are falsy. -/
def pyFalsy : Option String → Bool
  | none => true
  | some s => s = ""

-- PASSWORD HASHING (external passlib/bcrypt, modelled at its interface:
-- hashing is one-way and verify succeeds exactly on the hashed password).

/-- `pwd_context.hash(password)` (`app/src/services/auth.py`). -/
def get_password_hash (password : String) : String :=
  "bcrypt$" ++ password

/-- `pwd_context.verify(plain_password, hashed_password)`
(`app/src/services/auth.py`). -/
def verify_password (plain_password hashed_password : String) : Bool :=
  hashed_password == get_password_hash plain_password

-- TOKEN MINTING (`app/src/services/auth.py`, `app/src/services/email.py`)

/-- `create_access_token(data, expires_delta)` (`services/auth.py` lines
54-71): copies `data` and sets `exp = now + expires_delta` (the default
`settings.access_token_expire_minutes` is applied at this argument).  The
`type` and `jti` keys are whatever the caller put in `data`. -/
def create_access_token (data : TokenData) (now expires_delta : Nat) : Token :=
  Token.signed ⟨data.sub, now + expires_delta, data.type, data.jti⟩

/-- Default refresh lifetime `timedelta(days=7)` of `create_refresh_token`. -/
def refresh_default_ttl : Nat := 7 * 24 * 60 * 60

/-- `create_refresh_token(data, expires_delta)` (`services/auth.py` lines
73-90): copies `data` and updates it with `exp = now + expires_delta` and
`type = "refresh"`.  Note that the function adds no `jti` key: the token's
`jti` is whatever the caller put in `data` (call sites pass only `sub`). -/
def create_refresh_token (data : TokenData) (now expires_delta : Nat) : Token :=
  Token.signed ⟨data.sub, now + expires_delta, some "refresh", data.jti⟩

/-- `create_verification_token(user_id)` (`services/email.py`):
`{sub: str(user_id), exp: now + 24h, type: "email_verification"}`. -/
def create_verification_token (user_id : Nat) (now : Nat) : Token :=
  Token.signed ⟨some (toString user_id), now + 24 * 60 * 60, some "email_verification", none⟩

/-- `create_password_reset_token(email)` (`services/email.py`):
`{sub: email, exp: now + 24h, type: "password_reset"}`. -/
def create_password_reset_token (email : String) (now : Nat) : Token :=
  Token.signed ⟨some email, now + 24 * 60 * 60, some "password_reset", none⟩

-- CREDENTIAL STORE LOOKUPS (`app/src/repository/users.py`)

/-- `get_user_by_email(email, db)`: `select(User).where(User.email == email)`,
first result or `None`. -/
def get_user_by_email (email : String) (db : List User) : Option User :=
  db.find? (fun u => u.email == email)

/-- `get_user_by_id(user_id, db)`: `select(User).filter_by(id=user_id)`,
first result or `None`. -/
def get_user_by_id (user_id : Nat) (db : List User) : Option User :=
  db.find? (fun u => u.id == user_id)

-- REFRESH-TOKEN STATE IN THE TOKEN CACHE.
-- `app/src/routes/auth.py` imports `store_refresh_token`,
-- `revoke_refresh_token` and `is_refresh_token_active` from
-- `app.src.services.auth`, but no definition of the three functions exists in
-- the repository source; the test suite (`tests/conftest.py`) substitutes an
-- in-memory dict keyed by jti.  They are therefore modelled from the spec.

/-- Modelled from the spec: `store_refresh_token(jti, email)` is missing from
`app/src/services/auth.py`.  Spec section 4.1: the issuer registers the jti as
active in the Token Cache.  Modelled as adding the (jti, subject) binding to
the active list, as the test double does with a dict. -/
def store_refresh_token (jti email : String) (store : List (String × String)) :
    List (String × String) :=
  (jti, email) :: store

/-- Modelled from the spec: `revoke_refresh_token(jti)` is missing from
`app/src/services/auth.py`.  Spec section 4.1: revocation unconditionally
removes the jti from the active set and is idempotent. -/
def revoke_refresh_token (jti : String) (store : List (String × String)) :
    List (String × String) :=
  store.filter (fun p => p.1 ≠ jti)

/-- Modelled from the spec: `is_refresh_token_active(jti)` is missing from
`app/src/services/auth.py`.  Spec section 4.1: a refresh exchange requires the
jti to be present in the Token Cache as active. -/
def is_refresh_token_active (jti : String) (store : List (String × String)) : Bool :=
  store.any (fun p => p.1 == jti)

-- IDENTITY RESOLVER (`app/src/services/auth.py`, `get_current_user`,
-- lines 94-138)

/-- The uniform 401 raised by the resolver
(`services/auth.py` lines 101-105). -/
def credentials_exception : HTTPErr :=
  ⟨401, "Could not validate credentials"⟩

/-- The Redis profile cache as the resolver sees it: either the connection /
read raises (`down`, swallowed by `except Exception: pass`) or it holds an
association list of serialized users keyed by `"user:" ++ email`. -/
inductive Cache where
  | down
  | store (m : List (String × User))
deriving Repr, DecidableEq

/-- `redis_conn.get(cache_key)` followed by `User(**json.loads(...))`. -/
def cache_lookup (m : List (String × User)) (key : String) : Option User :=
  (m.find? (fun p => p.1 == key)).map (fun p => p.2)

/-- Result of one resolver run: the returned user or raised `HTTPException`,
how many times the Credential Store was read, and the cache afterwards. -/
structure ResolveOut where
  result : Except HTTPErr User
  dbReads : Nat
  cache : Cache
deriving Repr, DecidableEq

/-- `get_current_user(token, db)` (`services/auth.py` lines 94-138): decode the
access token and take `sub`; on any decode failure or missing `sub` raise the
uniform 401.  Then try the Redis cache (all cache exceptions swallowed); on a
hit return the cached snapshot without touching the database.  On a miss query
the `users` table; no row raises the same 401; otherwise best-effort
write-through (the serialisation of the ORM row and the `set` call sit in a
`try/except Exception: pass`, so a write failure leaves the cache unchanged
and is never surfaced) and return the row. -/
def get_current_user (token : Token) (cache : Cache) (db : List User) (now : Nat) :
    ResolveOut :=
  match jwt_decode token now with
  | .error _ => ⟨.error credentials_exception, 0, cache⟩
  | .ok payload =>
    match payload.sub with
    | none => ⟨.error credentials_exception, 0, cache⟩
    | some email =>
      let cached : Option User :=
        match cache with
        | .down => none
        | .store m => cache_lookup m ("user:" ++ email)
      match cached with
      | some u => ⟨.ok u, 0, cache⟩
      | none =>
        match get_user_by_email email db with
        | none => ⟨.error credentials_exception, 1, cache⟩
        | some u =>
          match cache with
          | .down => ⟨.ok u, 1, cache⟩
          | .store m => ⟨.ok u, 1, .store (("user:" ++ email, u) :: m)⟩

-- ROLE GATE (`app/src/services/auth.py`, `get_current_active_admin`,
-- lines 188-195)

/-- The 403 raised by the role gate. -/
def admin_required_error : HTTPErr :=
  ⟨403, "Admin privileges required"⟩

/-- `get_current_active_admin(current_user)`: raise 403 unless
`current_user.role == "admin"`, else return the user unchanged. -/
def get_current_active_admin (current_user : User) : Except HTTPErr User :=
  if current_user.role ≠ "admin" then .error admin_required_error
  else .ok current_user

-- LOGIN ENDPOINT (`app/src/routes/auth.py`, `login`, lines 82-115)

/-- The uniform 401 of the login endpoint (routes/auth.py lines 89-93),
raised both for an unknown email and for a wrong password. -/
def incorrect_credentials_error : HTTPErr :=
  ⟨401, "Incorrect email or password"⟩

/-- The successful login response body: access and refresh tokens, the literal
token type `"bearer"`, and the user record (`UserResponse.from_orm(user)`). -/
structure LoginOk where
  access_token : Token
  refresh_token : Token
  token_type : String
  user : User
deriving Repr, DecidableEq

/-- `login(form_data, db)` (routes/auth.py lines 82-115).  Look the user up by
email; if there is no row or the password hash does not verify, raise the
uniform 401.  Otherwise mint an access token (15 minutes) and a refresh token,
decode the refresh token and read `payload["jti"]` to register it in Redis.
Since `create_refresh_token` encoded no `jti` key, that subscript raises
`KeyError`; the endpoint's `except Exception` handler turns any non-HTTP
exception into a 500 "Internal server error".  The active-jti store is
returned alongside the response; it is only written on the success path. -/
def login (username password : String) (db : List User)
    (store : List (String × String)) (now : Nat) :
    Except HTTPErr LoginOk × List (String × String) :=
  match get_user_by_email username db with
  | none => (.error incorrect_credentials_error, store)
  | some user =>
    if verify_password password user.password = false then
      (.error incorrect_credentials_error, store)
    else
      let access_token := create_access_token ⟨some user.email, none, none⟩ now (15 * 60)
      let refreshTok := create_refresh_token ⟨some user.email, none, none⟩ now refresh_default_ttl
      match jwt_decode refreshTok now with
      | .error _ => (.error ⟨500, "Internal server error"⟩, store)
      | .ok payload =>
        match payload.jti with
        | none => (.error ⟨500, "Internal server error"⟩, store)
        | some jti =>
          (.ok ⟨access_token, refreshTok, "bearer", user⟩,
           store_refresh_token jti user.email store)

-- TOKEN REFRESH ENDPOINT (`app/src/routes/auth.py`, `refresh_token`,
-- lines 369-400)

/-- The successful refresh response body. -/
structure RefreshOk where
  access_token : Token
  refresh_token : Token
deriving Repr, DecidableEq

/-- `refresh_token(request, db)` (routes/auth.py lines 369-400).  Decode the
presented token (any `JWTError` falls into the trailing `except Exception` and
becomes 401 "Invalid refresh token"); require `type == "refresh"`; require a
truthy `jti` and `sub`; require the jti active in Redis; then revoke the old
jti, mint a new access and refresh token, decode the new refresh token and
register `new_payload["jti"]`.  Since `create_refresh_token` encodes no `jti`,
that subscript raises `KeyError` after the old jti was already revoked, and
the handler returns 401 "Invalid refresh token" with the revocation already
durable. -/
def refresh_token (token : Token) (store : List (String × String)) (now : Nat) :
    Except HTTPErr RefreshOk × List (String × String) :=
  match jwt_decode token now with
  | .error _ => (.error ⟨401, "Invalid refresh token"⟩, store)
  | .ok payload =>
    if payload.type ≠ some "refresh" then
      (.error ⟨401, "Invalid refresh token type"⟩, store)
    else if pyFalsy payload.jti || pyFalsy payload.sub then
      (.error ⟨401, "Invalid refresh token"⟩, store)
    else
      let jti := payload.jti.getD ""
      let email := payload.sub.getD ""
      if is_refresh_token_active jti store = false then
        (.error ⟨401, "Refresh token revoked or expired"⟩, store)
      else
        let store' := revoke_refresh_token jti store
        let _access := create_access_token ⟨some email, none, none⟩ now (15 * 60)
        let new_refresh := create_refresh_token ⟨some email, none, none⟩ now refresh_default_ttl
        match jwt_decode new_refresh now with
        | .error _ => (.error ⟨401, "Invalid refresh token"⟩, store')
        | .ok new_payload =>
          match new_payload.jti with
          | none => (.error ⟨401, "Invalid refresh token"⟩, store')
          | some new_jti =>
            (.ok ⟨_access, new_refresh⟩, store_refresh_token new_jti email store')

-- SIGNUP (`app/src/repository/users.py` `create_user` lines 33-68 and
-- `app/src/routes/auth.py` `signup` lines 47-74)

/-- The exceptions `create_user` can raise into `signup`: an
`HTTPException` from the duplicate pre-check, or the `IntegrityError` the
unique constraint would raise if the pre-check raced (unreachable in this
sequential model). -/
inductive SignupExn where
  | http (e : HTTPErr)
  | integrity
deriving Repr, DecidableEq

/-- `create_user(user, db)` (repository/users.py lines 33-68).  If a row with
the email exists, raise `HTTPException(400, "Email already registered")`.
Otherwise hash the password and insert a row with `role = getattr(user,
'role', 'user')` — `UserCreate` has no `role` field, so always `"user"` — and
the column defaults `confirmed = False`, `avatar = NULL`; `id` is the
autoincrement key, modelled as one past the current row count.  The
best-effort verification email sits in its own `try/except` and changes no
state. -/
def create_user (email password : String) (db : List User) :
    Except SignupExn User × List User :=
  match get_user_by_email email db with
  | some _ => (.error (.http ⟨400, "Email already registered"⟩), db)
  | none =>
    let db_user : User := ⟨db.length + 1, email, get_password_hash password, false, none, "user"⟩
    (.ok db_user, db ++ [db_user])

/-- `signup(user_data, db)` (routes/auth.py lines 47-74).  Calls
`create_user`; `except IntegrityError` rolls back and raises 409; the trailing
`except Exception` — which, with no `except HTTPException: raise` clause
before it, also catches the duplicate-email `HTTPException(400)` raised by
`create_user` — raises 500 "Failed to create user due to an internal server
error.". -/
def signup (email password : String) (db : List User) :
    Except HTTPErr User × List User :=
  match create_user email password db with
  | (.ok u, db') => (.ok u, db')
  | (.error .integrity, _) =>
    (.error ⟨409, "User with this email already exists."⟩, db)
  | (.error (.http _), db') =>
    (.error ⟨500, "Failed to create user due to an internal server error."⟩, db')

-- PASSWORD RESET REQUEST (`app/src/routes/auth.py`,
-- `request_password_reset`, lines 275-312)

/-- What one run of the reset-request endpoint produces: the HTTP response and
whether a reset email was queued as a background task. -/
structure ResetRequestOut where
  response : Except HTTPErr String
  email_sent : Bool
deriving Repr, DecidableEq

/-- `request_password_reset(user_email, background_tasks, db)` (routes/auth.py
lines 275-312).  If no user has the email, return the message "If the email
exists, password reset instructions have been sent" and send nothing.  If a
user exists, mint a reset token, queue the reset email, and return the
message "Password reset instructions have been sent". -/
def request_password_reset (email : String) (db : List User) : ResetRequestOut :=
  match get_user_by_email email db with
  | none => ⟨.ok "If the email exists, password reset instructions have been sent", false⟩
  | some _ => ⟨.ok "Password reset instructions have been sent", true⟩

-- PASSWORD RESET COMPLETION (`app/src/services/auth.py`,
-- `reset_user_password`, lines 249-283, and `app/src/routes/auth.py`,
-- `reset_password`, lines 320-359)

/-- `reset_user_password(token, new_password, db)` (services/auth.py lines
249-283).  Returns `None` when the token fails to decode (`except JWTError`),
when its `type` claim is not `"password_reset"`, when `sub` is falsy, or when
no user has that email.  On the remaining path the code executes
`user.hashed_password = pwd_context.hash(new_password)` — but the mapped
column of the `User` model is `password`, and `hashed_password` is an
unmapped plain attribute, so the following `commit()` persists no change to
the stored row: the database is returned unchanged even on success. -/
def reset_user_password (token : Token) (new_password : String) (db : List User)
    (now : Nat) : Option User × List User :=
  match jwt_decode token now with
  | .error _ => (none, db)
  | .ok payload =>
    if payload.type ≠ some "password_reset" then (none, db)
    else
      match payload.sub with
      | none => (none, db)
      | some email =>
        if email = "" then (none, db)
        else
          match get_user_by_email email db with
          | none => (none, db)
          | some user =>
            let _unmapped := get_password_hash new_password
            (some user, db)

/-- `reset_password(reset_data, db)` (routes/auth.py lines 320-359).  The
schema already requires a non-empty token and a `new_password` of length at
least 6; the endpoint re-checks truthiness of both (only the password check is
representable here, the token being structural) and raises 422 on failure.
A `None` from `reset_user_password` becomes 400 "Invalid or expired token";
otherwise the success message is returned. -/
def reset_password (token : Token) (new_password : String) (db : List User)
    (now : Nat) : Except HTTPErr String × List User :=
  if new_password = "" then
    (.error ⟨422, "Token and new password are required"⟩, db)
  else
    match reset_user_password token new_password db now with
    | (none, db') => (.error ⟨400, "Invalid or expired token"⟩, db')
    | (some _, db') => (.ok "Password has been reset successfully", db')

-- EMAIL VERIFICATION (`app/src/routes/auth.py`, `verify_email`,
-- lines 141-201)

/-- One decimal digit of Python's `int()` parsing. -/
def pyDigit (c : Char) : Option Nat :=
  if c.isDigit then some (c.toNat - 48) else none

/-- Accumulator loop of `pyInt`. -/
def pyIntAux : List Char → Nat → Option Nat
  | [], acc => some acc
  | c :: cs, acc =>
    match pyDigit c with
    | none => none
    | some d => pyIntAux cs (acc * 10 + d)

/-- Python's `int(s)` on the strings this code can meet: parses a non-empty
all-digit string, and raises `ValueError` (here `none`) otherwise.  (Python's
`int` also strips whitespace and accepts a sign; the subjects produced by
`str(user_id)` never carry either.) -/
def pyInt (s : String) : Option Nat :=
  match s.data with
  | [] => none
  | cs => pyIntAux cs 0

/-- The `user.confirmed = True; await db.commit()` step of `verify_email`:
the row with the given id is persisted with `confirmed = true`. -/
def markConfirmed (uid : Nat) (db : List User) : List User :=
  db.map (fun v => if v.id == uid then { v with confirmed := true } else v)

/-- `verify_email(token, db)` (routes/auth.py lines 141-201).  Decode with
PyJWT: `ExpiredSignatureError` maps to 400 "Verification token expired" and
`InvalidTokenError` to 400 "Invalid token".  A falsy `sub` or a `type` other
than `"email_verification"` raises `HTTPException(400, "Invalid token type")`,
and a missing user raises `HTTPException(404, ...)` — but both raises happen
inside the `try` block whose trailing `except Exception` (there is no `except
HTTPException: raise` clause) converts them, like the `ValueError` of
`int(user_id)` on a non-numeric subject, into 500 "Failed to verify email".
An already-confirmed user yields a no-op success message; otherwise the
confirmed flag is set and committed. -/
def verify_email (token : Token) (db : List User) (now : Nat) :
    Except HTTPErr String × List User :=
  match jwt_decode token now with
  | .error .expired => (.error ⟨400, "Verification token expired"⟩, db)
  | .error .invalid => (.error ⟨400, "Invalid token"⟩, db)
  | .ok payload =>
    if pyFalsy payload.sub = true ∨ payload.type ≠ some "email_verification" then
      (.error ⟨500, "Failed to verify email"⟩, db)
    else
      match pyInt (payload.sub.getD "") with
      | none => (.error ⟨500, "Failed to verify email"⟩, db)
      | some uid =>
        match get_user_by_id uid db with
        | none => (.error ⟨500, "Failed to verify email"⟩, db)
        | some user =>
          if user.confirmed then (.ok "Email already verified", db)
          else (.ok "Email successfully verified", markConfirmed uid db)

-- FIXTURES for concrete evaluations

/-- Fixture: the stored row for `a@x.com` holding the hash of `"p1"`. -/
def u_p1 : User := ⟨1, "a@x.com", get_password_hash "p1", false, none, "user"⟩

/-- Fixture: a stored row for `a@x.com` whose password hash is the hash of
`"oldpass"`. -/
def u_oldpass : User := ⟨1, "a@x.com", get_password_hash "oldpass", true, none, "user"⟩

-- THEOREMS

/-- C1: the claim says that exchanging an issued refresh token at the refresh
endpoint succeeds the first time and fails the second.  On the code the FIRST
exchange already fails with 401 "Invalid refresh token": `create_refresh_token`
encodes no `jti` claim, so the endpoint's `if not jti` guard fires (first
conjunct, with the jti store non-empty).  Even a hand-crafted refresh token
that does carry an active jti cannot be exchanged: the rotated replacement
token also lacks a `jti`, so `new_payload["jti"]` raises `KeyError` and the
endpoint answers 401 after the old jti has already been revoked from the store
(second conjunct: the store ends empty). -/
theorem c1_first_refresh_exchange_fails :
  refresh_token (create_refresh_token ⟨some "a@x.com", none, none⟩ 0 refresh_default_ttl)
      [("j0", "a@x.com")] 10
    = (.error ⟨401, "Invalid refresh token"⟩, [("j0", "a@x.com")])
  ∧ refresh_token (Token.signed ⟨some "a@x.com", 604800, some "refresh", some "j0"⟩)
      [("j0", "a@x.com")] 10
    = (.error ⟨401, "Invalid refresh token"⟩, []) := by
  decide

/-- C2: the claim says every refresh token minted by `create_refresh_token`
carries {sub, exp = now + refresh lifetime, type = "refresh", fresh unique
jti}.  Evaluating the function at its call-site argument `{"sub": email}`
shows the first three claims hold but the claim set carries NO `jti`
(`jti = none`): the function updates the copied dict only with `exp` and
`type`. -/
theorem c2_issued_refresh_token_carries_no_jti :
  create_refresh_token ⟨some "a@x.com", none, none⟩ 0 refresh_default_ttl
    = Token.signed ⟨some "a@x.com", 0 + refresh_default_ttl, some "refresh", none⟩ := by
  decide

/-- C3: login with a registered email and a wrong password and login with an
unregistered email and any password return the very same authentication
error: status 401, detail "Incorrect email or password" — the two runs are
indistinguishable and the jti store is untouched. -/
theorem c3_login_failure_uniform
    (db : List User) (store : List (String × String)) (now : Nat)
    (idA pA idB pB : String) (u : User)
    (hA : get_user_by_email idA db = some u)
    (hwrong : verify_password pA u.password = false)
    (hB : get_user_by_email idB db = none) :
    login idA pA db store now = login idB pB db store now
    ∧ login idA pA db store now = (.error incorrect_credentials_error, store) := by
  constructor <;> simp [login, hA, hB, hwrong]

/-- Witness for C3 at a concrete store: `a@x.com` is registered with the hash
of "p1", `b@x.com` is not; "wrong" does not verify. -/
theorem c3_witness :
  get_user_by_email "a@x.com" [u_p1] = some u_p1
  ∧ verify_password "wrong" u_p1.password = false
  ∧ get_user_by_email "b@x.com" [u_p1] = none
  ∧ login "a@x.com" "wrong" [u_p1] [] 0 = login "b@x.com" "anything" [u_p1] [] 0 :=
  ⟨by decide, by decide, by decide,
   (c3_login_failure_uniform [u_p1] [] 0 "a@x.com" "wrong" "b@x.com" "anything" u_p1
      (by decide) (by decide) (by decide)).1⟩

/-- C4 counterexample: the claim says the reset-request endpoint returns the
SAME generic success response whether or not the email is registered.  At the
concrete input `a@x.com` the two responses differ: "Password reset
instructions have been sent" when the row exists versus "If the email exists,
password reset instructions have been sent" when it does not. -/
theorem c4_counterexample :
  (request_password_reset "a@x.com" [⟨1, "a@x.com", "h", true, none, "user"⟩]).response
    ≠ (request_password_reset "a@x.com" []).response := by
  decide

/-- C4 amended: for every input email the reset-request endpoint returns an
HTTP 200 success response whether or not an identity with that email exists,
but the success message differs between the two cases, so the two runs are
distinguishable to the caller. -/
theorem c4_success_both_ways_but_distinguishable
    (email : String) (db db' : List User) (u : User)
    (h : get_user_by_email email db = some u)
    (h' : get_user_by_email email db' = none) :
    (request_password_reset email db).response
        = .ok "Password reset instructions have been sent"
    ∧ (request_password_reset email db').response
        = .ok "If the email exists, password reset instructions have been sent"
    ∧ (request_password_reset email db).response
        ≠ (request_password_reset email db').response := by
  refine ⟨by simp [request_password_reset, h], by simp [request_password_reset, h'], ?_⟩
  simp [request_password_reset, h, h']

/-- Witness for C4 at the concrete input of the counterexample. -/
theorem c4_witness :
  (request_password_reset "a@x.com" [⟨1, "a@x.com", "h", true, none, "user"⟩]).response
    ≠ (request_password_reset "a@x.com" []).response :=
  (c4_success_both_ways_but_distinguishable "a@x.com"
     [⟨1, "a@x.com", "h", true, none, "user"⟩] [] ⟨1, "a@x.com", "h", true, none, "user"⟩
     (by decide) (by decide)).2.2

/-- C5: the claim says a signup with an already-registered email fails with a
409-equivalent conflict.  On the code the first signup succeeds and inserts
the row, but the duplicate signup answers 500 "Failed to create user due to an
internal server error.": `create_user` raises `HTTPException(400)`, and
`signup` has no `except HTTPException: raise` clause, so its generic
`except Exception` handler converts the duplicate error into a 500.  The
stored set of identities is unchanged by the failed attempt (the database
component is still `[u_p1]`). -/
theorem c5_duplicate_signup_answers_500 :
  signup "a@x.com" "p1" [] = (.ok u_p1, [u_p1])
  ∧ signup "a@x.com" "p2" [u_p1]
      = (.error ⟨500, "Failed to create user due to an internal server error."⟩, [u_p1]) := by
  decide

/-- C6: for a decodable access token whose subject is cached, the resolver
returns the cached snapshot with zero Credential Store reads and an unchanged
cache; when the cache is unavailable it degrades to the direct store lookup;
and whatever the cache state, the only error the resolver can surface is the
uniform 401 `credentials_exception` — no cache failure ever reaches the
caller. -/
theorem c6_resolver_cache_semantics
    (tok : Token) (db : List User) (now : Nat) (c : Claims) (email : String)
    (hdec : jwt_decode tok now = .ok c) (hsub : c.sub = some email) :
    (∀ m u, cache_lookup m ("user:" ++ email) = some u →
       get_current_user tok (Cache.store m) db now = ⟨.ok u, 0, Cache.store m⟩)
  ∧ (get_current_user tok Cache.down db now =
       match get_user_by_email email db with
       | some u => ⟨.ok u, 1, Cache.down⟩
       | none => ⟨.error credentials_exception, 1, Cache.down⟩)
  ∧ (∀ cache e, (get_current_user tok cache db now).result = .error e →
       e = credentials_exception) := by
  refine ⟨?_, ?_, ?_⟩
  · intro m u hm
    simp [get_current_user, hdec, hsub, hm]
  · simp only [get_current_user, hdec, hsub]
    cases h : get_user_by_email email db <;> simp [h]
  · intro cache e
    cases cache with
    | down =>
      simp only [get_current_user, hdec, hsub]
      cases h : get_user_by_email email db with
      | none =>
        simp [h]
        intro he
        simp [he.symm]
      | some u => simp [h]
    | store m =>
      simp only [get_current_user, hdec, hsub]
      cases hm : cache_lookup m ("user:" ++ email) with
      | some u => simp [hm]
      | none =>
        cases h : get_user_by_email email db with
        | none =>
          simp [hm, h]
          intro he
          simp [he.symm]
        | some u => simp [hm, h]

/-- Witness for C6: concrete token for `a@x.com`, a cache holding its
snapshot, and an empty database — the resolver returns the snapshot without
reading the store. -/
theorem c6_witness :
  get_current_user (Token.signed ⟨some "a@x.com", 900, none, none⟩)
      (Cache.store [("user:a@x.com", u_oldpass)]) [] 0
    = ⟨.ok u_oldpass, 0, Cache.store [("user:a@x.com", u_oldpass)]⟩ :=
  (c6_resolver_cache_semantics (Token.signed ⟨some "a@x.com", 900, none, none⟩) [] 0
     ⟨some "a@x.com", 900, none, none⟩ "a@x.com" (by decide) (by decide)).1
    [("user:a@x.com", u_oldpass)] u_oldpass (by decide)

/-- C7: the role gate returns the identity unchanged exactly when its role is
"admin", otherwise fails with the 403 "Admin privileges required" error, which
is distinct from the 401 `credentials_exception` of the resolver. -/
theorem c7_role_gate_exact
    (identity : User) :
    (get_current_active_admin identity = .ok identity ↔ identity.role = "admin")
  ∧ (identity.role ≠ "admin" →
       get_current_active_admin identity = .error admin_required_error)
  ∧ admin_required_error.status = 403
  ∧ credentials_exception.status = 401
  ∧ admin_required_error ≠ credentials_exception := by
  refine ⟨⟨?_, ?_⟩, ?_, by decide, by decide, by decide⟩
  · intro h
    by_contra hr
    simp [get_current_active_admin, hr] at h
  · intro h
    simp [get_current_active_admin, h]
  · intro h
    simp [get_current_active_admin, h]

/-- Witness for C7: an admin passes through unchanged; a plain user gets the
403. -/
theorem c7_witness :
  get_current_active_admin ⟨1, "a@x.com", "h", true, none, "admin"⟩
    = .ok ⟨1, "a@x.com", "h", true, none, "admin"⟩
  ∧ get_current_active_admin u_p1 = .error admin_required_error :=
  ⟨(c7_role_gate_exact ⟨1, "a@x.com", "h", true, none, "admin"⟩).1.mpr (by decide),
   (c7_role_gate_exact u_p1).2.1 (by decide)⟩

/-- C8: the claim says the reset-completion flow rejects a token that fails to
decode, has the wrong `type`, or matches no identity — which these three
evaluations confirm (an access token, a garbage token, and a reset token for
an unknown email each give 400 "Invalid or expired token" with the store
unchanged) — and that the password hash is overwritten when all the checks
pass.  The fourth conjunct shows the divergence: with a valid reset token for
the stored user the endpoint reports success, yet the database still holds
exactly `u_oldpass` — the stored hash was never overwritten because
`reset_user_password` assigns `user.hashed_password`, an attribute that is not
a mapped column of the `User` model (the column is `password`). -/
theorem c8_reset_completion_never_overwrites_hash :
  reset_password (create_access_token ⟨some "a@x.com", none, none⟩ 0 900)
      "newpass123" [u_oldpass] 0
    = (.error ⟨400, "Invalid or expired token"⟩, [u_oldpass])
  ∧ reset_password Token.garbage "newpass123" [u_oldpass] 0
    = (.error ⟨400, "Invalid or expired token"⟩, [u_oldpass])
  ∧ reset_password (create_password_reset_token "b@x.com" 0) "newpass123" [u_oldpass] 0
    = (.error ⟨400, "Invalid or expired token"⟩, [u_oldpass])
  ∧ reset_password (create_password_reset_token "a@x.com" 0) "newpass123" [u_oldpass] 0
    = (.ok "Password has been reset successfully", [u_oldpass]) := by
  decide

/-- Auxiliary for C9: looking a user up by id after `markConfirmed` of that id
finds the same row with `confirmed` set. -/
theorem get_user_by_id_markConfirmed (uid : Nat) (db : List User) :
    get_user_by_id uid (markConfirmed uid db)
      = (get_user_by_id uid db).map (fun u => { u with confirmed := true }) := by
  induction db with
  | nil => rfl
  | cons x xs ih =>
    simp only [markConfirmed, List.map_cons, get_user_by_id] at ih ⊢
    by_cases h : x.id = uid
    · rw [List.find?_cons_of_pos _ (by simp [h]), List.find?_cons_of_pos _ (by simp [h])]
      simp [h]
    · rw [List.find?_cons_of_neg _ (by simp [h]), List.find?_cons_of_neg _ (by simp [h])]
      exact ih

/-- C9: for a valid token of type "email_verification" whose numeric subject
names a stored user, verification of an already-confirmed user is a no-op
success leaving the database unchanged; verification of an unconfirmed user
persists `confirmed = true`; and running the verification twice leaves the
same final database as running it once. -/
theorem c9_email_verification_idempotent
    (tok : Token) (db : List User) (now : Nat) (c : Claims) (s : String)
    (uid : Nat) (u : User)
    (hdec : jwt_decode tok now = .ok c)
    (htype : c.type = some "email_verification")
    (hsub : c.sub = some s) (hns : s ≠ "")
    (hint : pyInt s = some uid)
    (huser : get_user_by_id uid db = some u) :
    (u.confirmed = true → verify_email tok db now = (.ok "Email already verified", db))
  ∧ (u.confirmed = false →
       verify_email tok db now = (.ok "Email successfully verified", markConfirmed uid db))
  ∧ (verify_email tok (verify_email tok db now).2 now).2 = (verify_email tok db now).2 := by
  have hrun : verify_email tok db now =
      if u.confirmed then (.ok "Email already verified", db)
      else (.ok "Email successfully verified", markConfirmed uid db) := by
    simp [verify_email, hdec, hsub, htype, pyFalsy, hns, hint, huser]
  have huser2 : get_user_by_id uid (markConfirmed uid db)
      = some { u with confirmed := true } := by
    rw [get_user_by_id_markConfirmed, huser]
    rfl
  have hrun2 : verify_email tok (markConfirmed uid db) now
      = (.ok "Email already verified", markConfirmed uid db) := by
    simp [verify_email, hdec, hsub, htype, pyFalsy, hns, hint, huser2]
  refine ⟨fun hc => by simp [hrun, hc], fun hc => by simp [hrun, hc], ?_⟩
  cases hc : u.confirmed
  · simp [hrun, hc, hrun2]
  · simp [hrun, hc]

/-- Witness for C9: verifying user 1 (unconfirmed) with a fresh verification
token persists the confirmed flag. -/
theorem c9_witness :
  verify_email (create_verification_token 1 0) [⟨1, "a@x.com", "h", false, none, "user"⟩] 0
    = (.ok "Email successfully verified",
       markConfirmed 1 [⟨1, "a@x.com", "h", false, none, "user"⟩]) :=
  (c9_email_verification_idempotent (create_verification_token 1 0)
     [⟨1, "a@x.com", "h", false, none, "user"⟩] 0
     ⟨some "1", 0 + 24 * 60 * 60, some "email_verification", none⟩ "1" 1
     ⟨1, "a@x.com", "h", false, none, "user"⟩
     (by decide) (by decide) (by decide) (by decide) (by decide) (by decide)).2.1 (by decide)

/-- C10: the claim says login succeeds for a correct email/password pair even
when `confirmed = false`.  On the code login fails with 500 "Internal server
error" for EVERY correct pair, confirmed or not: after the password verifies,
the endpoint decodes the freshly minted refresh token and evaluates
`payload["jti"]`, which raises `KeyError` because `create_refresh_token`
encoded no jti; the generic `except Exception` handler turns it into a 500.
The two conjuncts evaluate login at the same correct credentials with
`confirmed = false` and `confirmed = true`: identical 500 responses (so the
confirmed flag is indeed never inspected, but no tokens are ever issued). -/
theorem c10_login_500_regardless_of_confirmed :
  login "a@x.com" "p1" [u_p1] [] 0 = (.error ⟨500, "Internal server error"⟩, [])
  ∧ login "a@x.com" "p1" [⟨1, "a@x.com", get_password_hash "p1", true, none, "user"⟩] [] 0
    = (.error ⟨500, "Internal server error"⟩, []) := by
  decide
